import Mathlib

/-!
Shallow embedding of the booking lifecycle engine of the
AI-Driven-Local-Service-Ecosystem server.

The embedded routes:
  * `changeStatus`        — PATCH /api/bookings/:id/status   (server/routes/messages.js)
  * `fetchOtp`            — GET   /api/bookings/:id/otp      (server/routes/messages.js)
  * `raiseDispute`        — POST  /api/bookings/:id/dispute  (server/routes/messages.js)
  * `submitReview`        — POST  /api/bookings/:id/review   (server/routes/messages.js)
  * `resolveDispute`      — PATCH /api/admin/disputes/:id/resolve (server/routes/admin.js)
  * `vendorUpdateBookingStatus` — PATCH /bookings/:bookingId/status (vendor router)

Each route is a pure function from the actor, the loaded booking record and
the request body to `Except Err Booking`.  A `.ok b` result is the record as
persisted by `booking.save()`; every `.error` path in the source returns
before `save()`, so an error means the stored record is unchanged.
Randomness (OTP generation) and the clock are passed in as parameters
(`newOtp`, `now`); dates are modelled as milliseconds (`Nat`).
-/

namespace Marketplace

/-- Actor roles resolved by the auth middleware (`req.user.role`). -/
inductive Role : Type
  | customer
  | vendor
  | admin
deriving DecidableEq, Repr

/-- `req.user.role` as the string the source interpolates into notes. -/
def Role.toStr : Role → String
  | .customer => "customer"
  | .vendor => "vendor"
  | .admin => "admin"

/-- The authenticated requester: `req.user._id` and `req.user.role`. -/
structure Actor : Type where
  id : Nat
  role : Role
deriving DecidableEq, Repr

/-- The `status` enum of the booking schema (models/Booking.js). -/
inductive BookingStatus : Type
  | pending
  | confirmed
  | inProgress
  | completed
  | cancelled
  | verificationPending
  | rejected
  | reported
deriving DecidableEq, Repr

/-- The string stored in Mongo for each status value. -/
def BookingStatus.toStr : BookingStatus → String
  | .pending => "pending"
  | .confirmed => "confirmed"
  | .inProgress => "in-progress"
  | .completed => "completed"
  | .cancelled => "cancelled"
  | .verificationPending => "verification-pending"
  | .rejected => "rejected"
  | .reported => "reported"

/-- The `payment.status` enum of the booking schema. -/
inductive PaymentStatus : Type
  | pending
  | paidToPlatform
  | payoutPending
  | paidToVendor
  | refundPending
  | refunded
deriving DecidableEq, Repr

/-- The `dispute.status` enum of the booking schema. -/
inductive DisputeStatus : Type
  | open
  | underReview
  | resolved
deriving DecidableEq, Repr

/-- The embedded `payment` sub-document. -/
structure Payment : Type where
  status : PaymentStatus
  transactionId : Option String
  payoutId : Option String
  paidAt : Option Nat
  payoutAt : Option Nat
  notes : Option String
deriving DecidableEq, Repr

/-- The embedded `rating` sub-document (`score`, `review`, `date`). -/
structure Rating : Type where
  score : Nat
  review : Option String
  date : Nat
deriving DecidableEq, Repr

/-- The embedded `dispute` sub-document. -/
structure Dispute : Type where
  raisedBy : Nat
  reason : String
  description : String
  status : Option DisputeStatus
  createdAt : Option Nat
  resolution : Option String
  resolvedBy : Option Nat
  resolvedAt : Option Nat
deriving DecidableEq, Repr

/-- One entry of the append-only `timeline` array. -/
structure TimelineEntry : Type where
  status : String
  note : String
  timestamp : Nat
deriving DecidableEq, Repr

/-- The booking record.  `customer` is the customer user id;
`vendorUser` is `booking.vendor.user._id` after population. -/
structure Booking : Type where
  customer : Nat
  vendorUser : Nat
  status : BookingStatus
  payment : Option Payment
  completionOtp : Option String
  completionOtpExpires : Option Nat
  rating : Option Rating
  dispute : Option Dispute
  notesCustomer : Option String
  notesVendor : Option String
  timeline : List TimelineEntry
deriving DecidableEq, Repr

/-- Error responses: `res.status(code).json({error: msg})`. -/
structure Err : Type where
  code : Nat
  msg : String
deriving DecidableEq, Repr

/-- JS truthiness of an optional string field (`undefined` and `""` are falsy). -/
def strTruthy : Option String → Prop
  | none => False
  | some s => s ≠ ""

instance (o : Option String) : Decidable (strTruthy o) := by
  cases o with
  | none => exact isFalse (fun h => h)
  | some s => exact (inferInstance : Decidable (s ≠ ""))

/-- JS `a || b` for an optional string: the default is used when the
field is `undefined` or the empty string. -/
def orElseStr (o : Option String) (d : String) : String :=
  match o with
  | none => d
  | some s => if s = "" then d else s

/-- JS truthiness of `booking.dispute && booking.dispute.status === 'open'`. -/
def disputeIsOpen : Option Dispute → Prop
  | some d => d.status = some DisputeStatus.open
  | none => False

instance (o : Option Dispute) : Decidable (disputeIsOpen o) := by
  cases o with
  | none => exact isFalse (fun h => h)
  | some d => exact (inferInstance : Decidable (d.status = some DisputeStatus.open))

/-- JS truthiness of `booking.rating && booking.rating.score`. -/
def ratingTruthy : Option Rating → Prop
  | some r => r.score ≠ 0
  | none => False

instance (o : Option Rating) : Decidable (ratingTruthy o) := by
  cases o with
  | none => exact isFalse (fun h => h)
  | some r => exact (inferInstance : Decidable (r.score ≠ 0))

/-- `validStatuses` of the status route — note `reported` is absent. -/
def validStatuses : List BookingStatus :=
  [.pending, .confirmed, .inProgress, .completed, .cancelled, .verificationPending, .rejected]

/-- `allowedVendorStatuses` of the status route. -/
def allowedVendorStatuses : List BookingStatus :=
  [.confirmed, .rejected, .inProgress, .verificationPending, .cancelled, .completed]

/-- The OTP-success mutation of the status route:
`booking.completionOtp = undefined` and, when the payment sub-record
exists, `booking.payment.status = 'payout_pending'`.
`completionOtpExpires` is not touched. -/
def clearOtpSetPayout (b : Booking) : Booking :=
  { b with completionOtp := none,
           payment := b.payment.map (fun p => { p with status := .payoutPending }) }

/-- The mutations of the status route after all validation has passed:
optional OTP generation, status write, notes write and the timeline push
(the state persisted by `booking.save()`).  `b1` is the record after the
OTP block's in-place mutations. -/
def applyStatusChange (user : Actor) (b1 : Booking) (status : BookingStatus)
    (notes : Option String) (newOtp : String) (now : Nat) : Booking :=
  let b2 := if status = .verificationPending then
      { b1 with completionOtp := some newOtp,
                completionOtpExpires := some (now + 10 * 60 * 1000) }
    else b1
  let b3 := { b2 with status := status }
  let b4 := if strTruthy notes then
      (if user.role = .customer then { b3 with notesCustomer := notes }
       else if user.role = .vendor then { b3 with notesVendor := notes }
       else b3)
    else b3
  { b4 with timeline := b4.timeline ++
        [⟨status.toStr,
          orElseStr notes ("Status updated to " ++ status.toStr ++ " by " ++ user.role.toStr),
          now⟩] }

/-- The tail of the status route after the OTP block: role-based
transition validation, then the mutations of `applyStatusChange`.
`booking` is the record as loaded (used for all checks, as in the
source); `b1` is the record after the OTP block's in-place mutations. -/
def changeStatusRest (user : Actor) (booking b1 : Booking) (status : BookingStatus)
    (notes : Option String) (newOtp : String) (now : Nat) : Except Err Booking :=
  if booking.customer = user.id ∧ status ≠ .cancelled then
    .error ⟨403, "As a customer, you can only cancel a booking."⟩
  else if booking.customer = user.id ∧
      booking.status ∈ [BookingStatus.completed, .cancelled, .rejected] then
    .error ⟨400, "Cannot cancel a booking that is already " ++ booking.status.toStr ++ "."⟩
  else if booking.vendorUser = user.id ∧ status ∉ allowedVendorStatuses then
    .error ⟨403, "As a vendor, you cannot set the status to \x27" ++ status.toStr ++ "\x27."⟩
  else if booking.vendorUser = user.id ∧ status = .completed ∧
      booking.status ≠ .verificationPending then
    .error ⟨400, "Cannot complete a booking directly. Please use the OTP verification flow."⟩
  else
    .ok (applyStatusChange user b1 status notes newOtp now)

/-- PATCH /api/bookings/:id/status (server/routes/messages.js).
`status`, `notes`, `otp` are the request body; `newOtp` is the value
`Math.floor(100000 + Math.random() * 900000).toString()` would produce,
`now` the clock. -/
def changeStatus (user : Actor) (booking : Booking) (status : BookingStatus)
    (notes : Option String) (otp : Option String) (newOtp : String) (now : Nat) :
    Except Err Booking :=
  if status ∉ validStatuses then
    .error ⟨400, "Invalid status provided: " ++ status.toStr ++ "."⟩
  else if ¬ (booking.customer = user.id) ∧ ¬ (booking.vendorUser = user.id) ∧
      ¬ (user.role = .admin) then
    .error ⟨403, "Access denied. You cannot update this booking."⟩
  else if status = .completed ∧ booking.status = .verificationPending then
    (if booking.vendorUser = user.id then
      (if ¬ strTruthy otp then
        .error ⟨400, "OTP is required to complete the booking."⟩
      else if booking.completionOtp ≠ otp then
        .error ⟨400, "Invalid OTP provided."⟩
      else
        changeStatusRest user booking (clearOtpSetPayout booking) status notes newOtp now)
    else if ¬ (user.role = .admin) then
      .error ⟨403, "Only the vendor or an admin can complete this booking."⟩
    else
      changeStatusRest user booking (clearOtpSetPayout booking) status notes newOtp now)
  else
    changeStatusRest user booking booking status notes newOtp now

/-- GET /api/bookings/:id/otp (server/routes/messages.js).  Returns the
persisted record together with the OTP sent in the response body. -/
def fetchOtp (user : Actor) (booking : Booking) (newOtp : String) (now : Nat) :
    Except Err (Booking × String) :=
  if ¬ (booking.customer = user.id) then
    .error ⟨403, "Access denied. You are not the customer for this booking."⟩
  else if booking.status ≠ .verificationPending then
    .error ⟨400, "OTP is only available for bookings pending verification."⟩
  else if ¬ strTruthy booking.completionOtp ∨ booking.completionOtpExpires = none ∨
      (∃ e, booking.completionOtpExpires = some e ∧ e < now) then
    let b := { booking with completionOtp := some newOtp,
                            completionOtpExpires := some (now + 10 * 60 * 1000) }
    .ok (b, newOtp)
  else
    .ok (booking, booking.completionOtp.getD "")

/-- `reportableStatuses` of the dispute route. -/
def reportableStatuses : List BookingStatus :=
  [.inProgress, .verificationPending, .completed]

/-- The mutations of the dispute route after validation: set
`status = reported`, create the open dispute sub-record, push the
timeline entry. -/
def applyRaiseDispute (user : Actor) (booking : Booking) (reason description : String)
    (now : Nat) : Booking :=
  { booking with
    status := .reported,
    dispute := some ⟨user.id, reason, description, some .open, some now, none, none, none⟩,
    timeline := booking.timeline ++
      [⟨"reported", "Dispute raised by " ++ user.role.toStr ++ ": \"" ++ reason ++ "\"",
        now⟩] }

/-- POST /api/bookings/:id/dispute (server/routes/messages.js). -/
def raiseDispute (user : Actor) (booking : Booking) (reason description : String)
    (now : Nat) : Except Err Booking :=
  if reason = "" ∨ description = "" then
    .error ⟨400, "Reason and description are required to report an issue."⟩
  else if ¬ (booking.customer = user.id) ∧ ¬ (booking.vendorUser = user.id) then
    .error ⟨403, "You are not authorized to report an issue for this booking."⟩
  else if booking.status ∉ reportableStatuses then
    .error ⟨400, "Cannot report an issue for a booking with status \"" ++
      booking.status.toStr ++ "\"."⟩
  else if disputeIsOpen booking.dispute then
    .error ⟨400, "An issue has already been reported for this booking and is currently open."⟩
  else
    .ok (applyRaiseDispute user booking reason description now)

/-- POST /api/bookings/:id/review (server/routes/messages.js).  The
already-reviewed guard is `booking.rating && booking.rating.score`,
so a rating is only seen as present when its score is truthy.  The
schema bound `score: min 1, max 5` (models/Booking.js) is enforced by
mongoose at `booking.save()`, surfacing as the catch-all 500, so a
persisted rating always has `1 ≤ score ≤ 5`. -/
def submitReview (user : Actor) (booking : Booking) (score : Nat) (review : Option String)
    (now : Nat) : Except Err Booking :=
  if ¬ (booking.customer = user.id) then
    .error ⟨403, "Only the customer who made the booking can leave a review."⟩
  else if booking.status ≠ .completed then
    .error ⟨400, "Can only review completed services."⟩
  else if ratingTruthy booking.rating then
    .error ⟨400, "A review for this booking has already been submitted."⟩
  else if score < 1 ∨ 5 < score then
    .error ⟨500, "Booking validation failed: rating.score"⟩
  else
    .ok { booking with rating := some ⟨score, review, now⟩ }

/-- The mutations of the resolve route after validation: mark the
dispute resolved, set the final status, derive the payment status, push
the timeline entry.  `d` is the dispute sub-record found on the booking. -/
def applyResolveDispute (user : Actor) (booking : Booking) (d : Dispute)
    (resolution : String) (fs : BookingStatus) (now : Nat) : Booking :=
  { booking with
    dispute := some { d with status := some .resolved, resolution := some resolution,
                             resolvedBy := some user.id, resolvedAt := some now },
    status := fs,
    payment := booking.payment.map (fun p =>
      if fs = .completed then { p with status := .payoutPending }
      else if fs = .cancelled then { p with status := .refundPending }
      else p),
    timeline := booking.timeline ++
      [⟨"resolved",
        "Admin resolved the dispute. Final status set to \x27" ++ fs.toStr ++
          "\x27. Resolution: \"" ++ resolution ++ "\"",
        now⟩] }

/-- PATCH /api/admin/disputes/:id/resolve (server/routes/admin.js).
The `authorizeRole(['admin'])` middleware rejects non-admins first;
`resolution` and `finalStatus` are body fields (`""` / `none` model a
missing field). -/
def resolveDispute (user : Actor) (booking : Booking) (resolution : String)
    (finalStatus : Option BookingStatus) (now : Nat) : Except Err Booking :=
  if ¬ (user.role = .admin) then
    .error ⟨403, "Access denied"⟩
  else if resolution = "" ∨ finalStatus = none then
    .error ⟨400, "Resolution notes and a final status are required."⟩
  else
    match finalStatus with
    | none => .error ⟨400, "Resolution notes and a final status are required."⟩
    | some fs =>
      if fs ∉ [BookingStatus.completed, .cancelled] then
        .error ⟨400, "Invalid final status."⟩
      else
        match booking.dispute with
        | none => .error ⟨404, "Disputed booking not found."⟩
        | some d => .ok (applyResolveDispute user booking d resolution fs now)

/-- Allowed target statuses of the vendor-router status route. -/
def allowedVendorStatusesAlt : List BookingStatus :=
  [.confirmed, .inProgress, .verificationPending, .cancelled]

/-- The mutations of the vendor-router status route: status write,
vendor-notes write, timeline push. -/
def applyVendorStatus (booking : Booking) (status : BookingStatus)
    (vendorNotes : Option String) (now : Nat) : Booking :=
  let b1 := { booking with
              status := status,
              notesVendor := if strTruthy vendorNotes then vendorNotes
                             else booking.notesVendor }
  { b1 with timeline := b1.timeline ++
        [⟨status.toStr, orElseStr vendorNotes ("Status updated to " ++ status.toStr), now⟩] }

/-- PATCH /bookings/:bookingId/status of the vendor router
(src/unnamed/part_000): vendor-only by middleware, no check of the
current status and no OTP generation for `verification-pending`. -/
def vendorUpdateBookingStatus (booking : Booking) (status : BookingStatus)
    (vendorNotes : Option String) (now : Nat) : Except Err Booking :=
  if status ∉ allowedVendorStatusesAlt then
    .error ⟨400,
      "Invalid status update. Allowed statuses are: confirmed, in-progress, verification-pending, cancelled."⟩
  else
    .ok (applyVendorStatus booking status vendorNotes now)

/-! ### Concrete records used by the counterexamples and witnesses -/

/-- A payment sub-record as created at booking time. -/
def payPlatform : Payment :=
  { status := .paidToPlatform, transactionId := none, payoutId := none,
    paidAt := some 1000, payoutAt := none, notes := none }

/-- A freshly created booking: customer 1, vendor user 2. -/
def baseBooking : Booking :=
  { customer := 1, vendorUser := 2, status := .pending, payment := some payPlatform,
    completionOtp := none, completionOtpExpires := none, rating := none, dispute := none,
    notesCustomer := none, notesVendor := none, timeline := [] }

def custActor : Actor := ⟨1, .customer⟩

def vendActor : Actor := ⟨2, .vendor⟩

def adminActor : Actor := ⟨9, .admin⟩

def bkCompleted : Booking := { baseBooking with status := .completed }

def bkInProgress : Booking := { baseBooking with status := .inProgress }

/-- A booking awaiting OTP verification, code `"123456"`, expiring at t=5000. -/
def bkVerif : Booking :=
  { baseBooking with status := .verificationPending,
                     completionOtp := some "123456", completionOtpExpires := some 5000 }

/-- A completed booking that already carries a customer rating. -/
def bkRated : Booking := { bkCompleted with rating := some ⟨4, none, 100⟩ }

/-- A dispute sub-record that has already been resolved. -/
def resolvedDispute : Dispute :=
  ⟨1, "bad work", "details", some .resolved, some 10, some "first resolution", some 9, some 20⟩

/-- A booking whose dispute was already resolved (cancelled, refund pending). -/
def bkResolved : Booking :=
  { baseBooking with status := .cancelled, dispute := some resolvedDispute,
                     payment := some { payPlatform with status := .refundPending } }

/-- Modelled from the spec (§4.1): the state-machine edge relation of the
claimed lifecycle — the chain `pending → confirmed → in-progress →
verification-pending → completed`, side branches into `cancelled`,
`rejected` and `reported` (`reported` reachable from in-progress,
verification-pending or completed), and administrator resolution of
`reported` back into `completed` or `cancelled`.  This definition follows
the spec's words, generously (cancellation allowed from every state), and
is compared against the code's behaviour. -/
def specEdge : BookingStatus → BookingStatus → Bool
  | .pending, .confirmed => true
  | .confirmed, .inProgress => true
  | .inProgress, .verificationPending => true
  | .verificationPending, .completed => true
  | _, .cancelled => true
  | .pending, .rejected => true
  | .confirmed, .rejected => true
  | .inProgress, .reported => true
  | .verificationPending, .reported => true
  | .completed, .reported => true
  | .reported, .completed => true
  | _, _ => false

/-! ### Helper lemmas: success-path characterizations -/

/-- If the post-OTP tail of the status route returns `.ok b`, the persisted
record is exactly `applyStatusChange` of the in-memory record. -/
theorem changeStatusRest_ok {user : Actor} {booking b1 : Booking} {status : BookingStatus}
    {notes : Option String} {newOtp : String} {now : Nat} {b : Booking}
    (h : changeStatusRest user booking b1 status notes newOtp now = .ok b) :
    b = applyStatusChange user b1 status notes newOtp now := by
  unfold changeStatusRest at h
  split_ifs at h
  all_goals first
    | exact Except.noConfusion h
    | (injection h with h0; exact h0.symm)

/-- Any successful status change persists `applyStatusChange` of the loaded
record, with the OTP-clearing/payout mutation applied exactly when the
target is `completed` and the current status is `verification-pending`. -/
theorem changeStatus_ok {user : Actor} {booking : Booking} {status : BookingStatus}
    {notes otp : Option String} {newOtp : String} {now : Nat} {b : Booking}
    (h : changeStatus user booking status notes otp newOtp now = .ok b) :
    b = applyStatusChange user
          (if status = .completed ∧ booking.status = .verificationPending
           then clearOtpSetPayout booking else booking) status notes newOtp now := by
  unfold changeStatus at h
  split_ifs at h
  all_goals first
    | exact Except.noConfusion h
    | (have h0 := changeStatusRest_ok h
       subst h0
       split <;> first | rfl | (exfalso; tauto))

theorem applyStatusChange_status (user : Actor) (b1 : Booking) (status : BookingStatus)
    (notes : Option String) (newOtp : String) (now : Nat) :
    (applyStatusChange user b1 status notes newOtp now).status = status := by
  unfold applyStatusChange
  split_ifs <;> rfl

theorem applyStatusChange_payment (user : Actor) (b1 : Booking) (status : BookingStatus)
    (notes : Option String) (newOtp : String) (now : Nat) :
    (applyStatusChange user b1 status notes newOtp now).payment = b1.payment := by
  unfold applyStatusChange
  split_ifs <;> rfl

theorem applyStatusChange_completionOtp (user : Actor) (b1 : Booking) (status : BookingStatus)
    (notes : Option String) (newOtp : String) (now : Nat) :
    (applyStatusChange user b1 status notes newOtp now).completionOtp =
      (if status = .verificationPending then some newOtp else b1.completionOtp) := by
  unfold applyStatusChange
  split_ifs <;> rfl

theorem applyStatusChange_completionOtpExpires (user : Actor) (b1 : Booking)
    (status : BookingStatus) (notes : Option String) (newOtp : String) (now : Nat) :
    (applyStatusChange user b1 status notes newOtp now).completionOtpExpires =
      (if status = .verificationPending then some (now + 10 * 60 * 1000)
       else b1.completionOtpExpires) := by
  unfold applyStatusChange
  split_ifs <;> rfl

theorem applyStatusChange_timeline (user : Actor) (b1 : Booking) (status : BookingStatus)
    (notes : Option String) (newOtp : String) (now : Nat) :
    (applyStatusChange user b1 status notes newOtp now).timeline =
      b1.timeline ++
        [⟨status.toStr,
          orElseStr notes ("Status updated to " ++ status.toStr ++ " by " ++ user.role.toStr),
          now⟩] := by
  unfold applyStatusChange
  split_ifs <;> rfl

/-- A successful dispute raise persists exactly `applyRaiseDispute`. -/
theorem raiseDispute_ok {user : Actor} {booking : Booking} {reason description : String}
    {now : Nat} {b : Booking}
    (h : raiseDispute user booking reason description now = .ok b) :
    b = applyRaiseDispute user booking reason description now := by
  unfold raiseDispute at h
  split_ifs at h
  all_goals first
    | exact Except.noConfusion h
    | (injection h with h0; exact h0.symm)

/-- A successful vendor-router status update persists exactly
`applyVendorStatus`. -/
theorem vendorUpdateBookingStatus_ok {booking : Booking} {status : BookingStatus}
    {vendorNotes : Option String} {now : Nat} {b : Booking}
    (h : vendorUpdateBookingStatus booking status vendorNotes now = .ok b) :
    b = applyVendorStatus booking status vendorNotes now := by
  unfold vendorUpdateBookingStatus at h
  split_ifs at h
  all_goals first
    | exact Except.noConfusion h
    | (injection h with h0; exact h0.symm)

/-- A successful dispute resolution requires a dispute sub-record to exist
and persists exactly `applyResolveDispute` — with no condition at all on the
dispute's current status. -/
theorem resolveDispute_ok {user : Actor} {booking : Booking} {resolution : String}
    {fs : BookingStatus} {now : Nat} {b : Booking}
    (h : resolveDispute user booking resolution (some fs) now = .ok b) :
    ∃ d, booking.dispute = some d ∧
      b = applyResolveDispute user booking d resolution fs now := by
  unfold resolveDispute at h
  rcases hd : booking.dispute with _ | d
  · simp only [hd] at h
    split_ifs at h
  · simp only [hd] at h
    split_ifs at h
    all_goals first
      | exact Except.noConfusion h
      | (injection h with h0; exact ⟨d, rfl, h0.symm⟩)

/-! ### Counterexamples -/

/-- Counterexample to C1: `completed → confirmed` is not an edge of the spec's
state machine, yet a vendor `ChangeStatus(confirmed)` request on a completed
booking succeeds and persists `status = confirmed`; the claimed validation
failure does not occur and status transitions outside the edges. -/
theorem c1_counterexample :
    ((changeStatus vendActor bkCompleted .confirmed none none "654321" 7000).toOption.map
      Booking.status) = some .confirmed ∧
    specEdge .completed .confirmed = false := by
  constructor
  · rfl
  · rfl

/-- Counterexample to C2: raising a dispute on a verification-pending booking
forces `status = reported` but leaves `completionOtp` non-empty, so the
claimed "completionOtp non-empty iff status = verification-pending" fails
(the claim names this very transition as clearing the code). -/
theorem c2_counterexample :
    ((raiseDispute custActor bkVerif "late" "desc" 7000).toOption.map
      fun b => (b.status, b.completionOtp)) =
    some (.reported, some "123456") := by
  rfl

/-- Counterexample to C4: a vendor completion with the correct code succeeds but
leaves `completionOtpExpires` at its old value — only `completionOtp` is
cleared, so "clears the OTP code fields (completionOtp and
completionOtpExpires)" is false. -/
theorem c4_counterexample :
    ((changeStatus vendActor bkVerif .completed none (some "123456") "654321" 7000).toOption.map
      fun b => (b.status, b.completionOtp, b.completionOtpExpires)) =
    some (.completed, none, some 5000) := by
  rfl

/-- Counterexample to C5: a second `ResolveDispute` on a booking whose dispute
already has status `resolved` succeeds instead of failing — it overwrites
the resolution text and moves the booking from `cancelled` to `completed`,
so neither the booking nor the dispute sub-record is left unchanged. -/
theorem c5_counterexample :
    ((resolveDispute adminActor bkResolved "second resolution" (some .completed) 8000).toOption.map
      fun b => (b.status, b.dispute.map Dispute.resolution,
                b.payment.map Payment.status)) =
    some (.completed, some (some "second resolution"), some .payoutPending) := by
  rfl

/-- Counterexample to C6: an admin forcing `completed` on an `in-progress`
booking succeeds, but the payment status stays `paid_to_platform` — reaching
`completed` via admin force does not always set `payout_pending` (the payment
write is guarded by the current status being `verification-pending`). -/
theorem c6_counterexample :
    ((changeStatus adminActor bkInProgress .completed none none "654321" 7000).toOption.map
      fun b => (b.status, b.payment.map Payment.status)) =
    some (.completed, some .paidToPlatform) := by
  rfl

/-- Counterexample to C7: when an admin forces a verification-pending booking
to `completed` with no note supplied, the appended timeline entry carries
only the generic note `"Status updated to completed by admin"` — no
"bypassed verification" note is recorded anywhere in the route. -/
theorem c7_counterexample :
    ((changeStatus adminActor bkVerif .completed none none "654321" 7000).toOption.map
      fun b => b.timeline.map TimelineEntry.note) =
    some ["Status updated to completed by admin"] := by
  rfl

/-! ### Further helper lemmas on `changeStatus` -/

/-- Conditions that necessarily hold whenever the post-OTP tail of the
status route succeeds. -/
theorem changeStatusRest_ok_conditions {user : Actor} {booking b1 : Booking}
    {status : BookingStatus} {notes : Option String} {newOtp : String} {now : Nat} {b : Booking}
    (h : changeStatusRest user booking b1 status notes newOtp now = .ok b) :
    (booking.customer = user.id → status = .cancelled ∧
       booking.status ∉ [BookingStatus.completed, .cancelled, .rejected]) ∧
    (booking.vendorUser = user.id → status ∈ allowedVendorStatuses ∧
       (status = .completed → booking.status = .verificationPending)) := by
  unfold changeStatusRest at h
  split_ifs at h
  all_goals first
    | exact Except.noConfusion h
    | exact ⟨by tauto, by tauto⟩

/-- Conditions that necessarily hold whenever a status change succeeds:
the role-based validation the route actually performs. -/
theorem changeStatus_ok_conditions {user : Actor} {booking : Booking} {status : BookingStatus}
    {notes otp : Option String} {newOtp : String} {now : Nat} {b : Booking}
    (h : changeStatus user booking status notes otp newOtp now = .ok b) :
    status ∈ validStatuses ∧
    (booking.customer = user.id → status = .cancelled ∧
       booking.status ∉ [BookingStatus.completed, .cancelled, .rejected]) ∧
    (booking.vendorUser = user.id → status ∈ allowedVendorStatuses ∧
       (status = .completed → booking.status = .verificationPending)) := by
  unfold changeStatus at h
  split_ifs at h
  all_goals first
    | exact Except.noConfusion h
    | exact ⟨by tauto, (changeStatusRest_ok_conditions h).1,
        (changeStatusRest_ok_conditions h).2⟩

/-- Every error of the post-OTP tail carries HTTP code 400 or 403. -/
theorem changeStatusRest_error_code {user : Actor} {booking b1 : Booking}
    {status : BookingStatus} {notes : Option String} {newOtp : String} {now : Nat} {e : Err}
    (h : changeStatusRest user booking b1 status notes newOtp now = .error e) :
    e.code = 400 ∨ e.code = 403 := by
  unfold changeStatusRest at h
  split_ifs at h
  all_goals first
    | exact Except.noConfusion h
    | (injection h with h0; subst h0; exact Or.inl rfl)
    | (injection h with h0; subst h0; exact Or.inr rfl)

/-- Every error of the status route carries HTTP code 400 or 403. -/
theorem changeStatus_error_code {user : Actor} {booking : Booking} {status : BookingStatus}
    {notes otp : Option String} {newOtp : String} {now : Nat} {e : Err}
    (h : changeStatus user booking status notes otp newOtp now = .error e) :
    e.code = 400 ∨ e.code = 403 := by
  unfold changeStatus at h
  split_ifs at h
  all_goals first
    | exact changeStatusRest_error_code h
    | (injection h with h0; subst h0; exact Or.inl rfl)
    | (injection h with h0; subst h0; exact Or.inr rfl)

/-! ### Claim theorems -/

/-- Claim C1 as amended: the status route validates only the per-role target
sets — a customer may request only `cancelled` (any other target fails with a
400/403 error), a customer cancel of an already completed/cancelled/rejected
booking fails, a vendor request outside the vendor set fails, and a vendor
`completed` request outside `verification-pending` fails; in every failure
case the route returns before `save()`, so the record is unchanged.
Reachability along the spec state-machine edges is not otherwise enforced
(see the counterexample: a vendor may re-confirm a completed booking). -/
theorem c1_amended_theorem (user : Actor) (booking : Booking) (status : BookingStatus)
    (notes otp : Option String) (newOtp : String) (now : Nat) :
    (booking.customer = user.id → status ≠ .cancelled →
       ∃ e, changeStatus user booking status notes otp newOtp now = .error e ∧
         (e.code = 400 ∨ e.code = 403)) ∧
    (booking.customer = user.id → status = .cancelled →
       booking.status ∈ [BookingStatus.completed, .cancelled, .rejected] →
       changeStatus user booking status notes otp newOtp now =
         .error ⟨400, "Cannot cancel a booking that is already " ++
           booking.status.toStr ++ "."⟩) ∧
    (booking.vendorUser = user.id → booking.customer ≠ user.id →
       status ∈ validStatuses → status ∉ allowedVendorStatuses →
       changeStatus user booking status notes otp newOtp now =
         .error ⟨403, "As a vendor, you cannot set the status to \x27" ++
           status.toStr ++ "\x27."⟩) ∧
    (booking.vendorUser = user.id → booking.customer ≠ user.id →
       status = .completed → booking.status ≠ .verificationPending →
       changeStatus user booking status notes otp newOtp now =
         .error ⟨400, "Cannot complete a booking directly. Please use the OTP verification flow."⟩) := by
  refine ⟨?_, ?_, ?_, ?_⟩
  · intro hc hs
    cases hres : changeStatus user booking status notes otp newOtp now with
    | ok b =>
      exfalso
      exact hs ((changeStatus_ok_conditions hres).2.1 hc).1
    | error e =>
      exact ⟨e, rfl, changeStatus_error_code hres⟩
  · intro hc hs hterm
    subst hs
    unfold changeStatus
    rw [if_neg (by decide : ¬ (BookingStatus.cancelled ∉ validStatuses)),
        if_neg (fun hn => hn.1 hc),
        if_neg (by rintro ⟨hx, _⟩; exact BookingStatus.noConfusion hx)]
    unfold changeStatusRest
    rw [if_neg (fun hn => hn.2 rfl), if_pos ⟨hc, hterm⟩]
  · intro hv hnc hvalid hna
    unfold changeStatus
    rw [if_neg (not_not_intro hvalid),
        if_neg (fun hn => hn.2.1 hv),
        if_neg (by rintro ⟨hx, _⟩; subst hx; exact hna (by decide))]
    unfold changeStatusRest
    rw [if_neg (fun hn => hnc hn.1), if_neg (fun hn => hnc hn.1),
        if_pos ⟨hv, hna⟩]
  · intro hv hnc hs hbs
    subst hs
    unfold changeStatus
    rw [if_neg (by decide : ¬ (BookingStatus.completed ∉ validStatuses)),
        if_neg (fun hn => hn.2.1 hv),
        if_neg (fun hn => hbs hn.2)]
    unfold changeStatusRest
    rw [if_neg (fun hn => hnc hn.1), if_neg (fun hn => hnc hn.1),
        if_neg (fun hn => hn.2 (by decide)),
        if_pos ⟨hv, rfl, hbs⟩]

/-- Witness for C1: a customer request targeting `confirmed` fails. -/
theorem c1_amended_witness :
    ∃ e, changeStatus custActor bkInProgress .confirmed none none "654321" 7000 =
      .error e ∧ (e.code = 400 ∨ e.code = 403) :=
  (c1_amended_theorem custActor bkInProgress .confirmed none none "654321" 7000).1
    rfl (by decide)

/-- Claim C2 as amended: on the main status route, `completionOtp` is set to
the fresh code exactly when the target is `verification-pending` and cleared
exactly on the completed-from-verification-pending path; every other
successful transition preserves both OTP fields.  In particular raising a
dispute forces `status = reported` while leaving `completionOtp` untouched,
and the vendor router can set `verification-pending` without generating any
code — so the claimed if-and-only-if fails in both directions. -/
theorem c2_amended_theorem (user : Actor) (booking b : Booking) (status : BookingStatus)
    (notes otp vendorNotes : Option String) (newOtp : String) (now : Nat)
    (reason description : String) :
    (changeStatus user booking status notes otp newOtp now = .ok b →
       (status = .verificationPending →
          b.completionOtp = some newOtp ∧
          b.completionOtpExpires = some (now + 10 * 60 * 1000)) ∧
       (status = .completed ∧ booking.status = .verificationPending →
          b.completionOtp = none) ∧
       (status ≠ .verificationPending →
          ¬ (status = .completed ∧ booking.status = .verificationPending) →
          b.completionOtp = booking.completionOtp ∧
          b.completionOtpExpires = booking.completionOtpExpires)) ∧
    (raiseDispute user booking reason description now = .ok b →
       b.status = .reported ∧ b.completionOtp = booking.completionOtp ∧
       b.completionOtpExpires = booking.completionOtpExpires) ∧
    (vendorUpdateBookingStatus booking status vendorNotes now = .ok b →
       b.status = status ∧ b.completionOtp = booking.completionOtp ∧
       b.completionOtpExpires = booking.completionOtpExpires) := by
  refine ⟨?_, ?_, ?_⟩ <;> intro h
  · have hb := changeStatus_ok h
    subst hb
    refine ⟨?_, ?_, ?_⟩
    · intro hs
      subst hs
      rw [applyStatusChange_completionOtp, applyStatusChange_completionOtpExpires]
      exact ⟨if_pos rfl, if_pos rfl⟩
    · rintro ⟨hs, hbs⟩
      subst hs
      rw [applyStatusChange_completionOtp, if_neg (by decide), if_pos ⟨rfl, hbs⟩]
      rfl
    · intro hs hcond
      rw [applyStatusChange_completionOtp, applyStatusChange_completionOtpExpires,
          if_neg hs, if_neg hs, if_neg hcond]
      exact ⟨rfl, rfl⟩
  · have hb := raiseDispute_ok h
    subst hb
    exact ⟨rfl, rfl, rfl⟩
  · have hb := vendorUpdateBookingStatus_ok h
    subst hb
    exact ⟨rfl, rfl, rfl⟩

/-- Witness for C2: a vendor moving an in-progress booking to
`verification-pending` stores the freshly generated code and its window. -/
theorem c2_amended_witness :
    (applyStatusChange vendActor bkInProgress .verificationPending none "654321" 7000).completionOtp =
      some "654321" ∧
    (applyStatusChange vendActor bkInProgress .verificationPending none "654321" 7000).completionOtpExpires =
      some (7000 + 10 * 60 * 1000) :=
  ((c2_amended_theorem vendActor bkInProgress
      (applyStatusChange vendActor bkInProgress .verificationPending none "654321" 7000)
      .verificationPending none none none "654321" 7000 "r" "d").1 rfl).1 rfl

/-- Claim C3 (confirmed): on a `verification-pending` booking, a vendor
`ChangeStatus(completed)` with no code (or the empty code, which JS treats
as missing) fails with the 400 "OTP is required" error, and one whose code
differs from the stored `completionOtp` fails with the 400 "Invalid OTP"
error; both failures return before `save()`, so the record and its status
are unchanged. -/
theorem c3_theorem (user : Actor) (booking : Booking) (notes : Option String)
    (otp : Option String) (newOtp : String) (now : Nat)
    (hst : booking.status = .verificationPending)
    (hv : booking.vendorUser = user.id) :
    ((otp = none ∨ otp = some "") →
      changeStatus user booking .completed notes otp newOtp now =
        .error ⟨400, "OTP is required to complete the booking."⟩) ∧
    (∀ o c, otp = some o → o ≠ "" → booking.completionOtp = some c → o ≠ c →
      changeStatus user booking .completed notes otp newOtp now =
        .error ⟨400, "Invalid OTP provided."⟩) := by
  constructor
  · intro h
    rcases h with h | h <;>
      simp [changeStatus, validStatuses, hst, hv, strTruthy, h]
  · intro o c ho hne hstored hdiff
    simp [changeStatus, validStatuses, hst, hv, strTruthy, ho, hne, hstored]
    intro hc
    exact absurd hc.symm hdiff

/-- Witness for C3 at a concrete booking: missing code and wrong code. -/
theorem c3_witness :
    changeStatus vendActor bkVerif .completed none none "654321" 7000 =
      .error ⟨400, "OTP is required to complete the booking."⟩ ∧
    changeStatus vendActor bkVerif .completed none (some "000000") "654321" 7000 =
      .error ⟨400, "Invalid OTP provided."⟩ :=
  ⟨(c3_theorem vendActor bkVerif none none "654321" 7000 rfl rfl).1 (Or.inl rfl),
   (c3_theorem vendActor bkVerif none (some "000000") "654321" 7000 rfl rfl).2
     "000000" "123456" rfl (by decide) rfl (by decide)⟩

/-- Claim C4 as amended: a vendor completion with the matching code succeeds,
clears `completionOtp`, sets `payment.status = payout_pending`, sets
`status = completed` and appends exactly one timeline entry — but
`completionOtpExpires` keeps its previous value (only the code field is
cleared by the route). -/
theorem c4_amended_theorem (user : Actor) (booking : Booking) (notes : Option String)
    (c newOtp : String) (now : Nat)
    (hst : booking.status = .verificationPending)
    (hv : booking.vendorUser = user.id)
    (hnc : booking.customer ≠ user.id)
    (hotp : booking.completionOtp = some c) (hc : c ≠ "") :
    ∃ b, changeStatus user booking .completed notes (some c) newOtp now = .ok b ∧
      b.completionOtp = none ∧
      b.completionOtpExpires = booking.completionOtpExpires ∧
      b.payment = booking.payment.map (fun p => { p with status := .payoutPending }) ∧
      b.status = .completed ∧
      b.timeline.length = booking.timeline.length + 1 := by
  simp [changeStatus, changeStatusRest, applyStatusChange, clearOtpSetPayout, validStatuses,
        allowedVendorStatuses, hst, hv, hnc, hotp, hc, strTruthy]
  split_ifs <;> simp

/-- Witness for C4 at the concrete verification-pending booking. -/
theorem c4_amended_witness :
    ∃ b, changeStatus vendActor bkVerif .completed none (some "123456") "654321" 7000 = .ok b ∧
      b.completionOtp = none ∧
      b.completionOtpExpires = bkVerif.completionOtpExpires ∧
      b.payment = bkVerif.payment.map (fun p => { p with status := .payoutPending }) ∧
      b.status = .completed ∧
      b.timeline.length = bkVerif.timeline.length + 1 :=
  c4_amended_theorem vendActor bkVerif none "123456" "654321" 7000 rfl rfl
    (by decide) rfl (by decide)

/-- Claim C5 as amended: `ResolveDispute` requires only that the booking and
its dispute sub-record exist — it never inspects the dispute status, so a
second resolution by an administrator (with non-empty resolution text and a
final status of completed or cancelled) succeeds and overwrites the
resolution text, resolver, timestamp and the booking status; a dispute is
not resolved exactly once. -/
theorem c5_amended_theorem (user : Actor) (booking : Booking) (resolution : String)
    (fs : BookingStatus) (now : Nat) (d : Dispute)
    (hrole : user.role = .admin) (hres : resolution ≠ "")
    (hfs : fs = .completed ∨ fs = .cancelled)
    (hd : booking.dispute = some d) :
    resolveDispute user booking resolution (some fs) now =
      .ok (applyResolveDispute user booking d resolution fs now) ∧
    (applyResolveDispute user booking d resolution fs now).dispute =
      some { d with
             status := some .resolved,
             resolution := some resolution,
             resolvedBy := some user.id,
             resolvedAt := some now } ∧
    (applyResolveDispute user booking d resolution fs now).status = fs := by
  refine ⟨?_, rfl, rfl⟩
  unfold resolveDispute
  simp only [hd]
  split_ifs with h1 h2
  · rcases h1 with h1 | h1
    · exact absurd h1 hres
    · exact h1.elim
  · rfl
  · exfalso
    rcases hfs with h | h <;> subst h <;> exact h2 (by decide)

/-- Witness for C5: re-resolving the already-resolved dispute succeeds. -/
theorem c5_amended_witness :
    resolveDispute adminActor bkResolved "second resolution" (some .completed) 8000 =
      .ok (applyResolveDispute adminActor bkResolved resolvedDispute "second resolution"
        .completed 8000) ∧
    (applyResolveDispute adminActor bkResolved resolvedDispute "second resolution"
        .completed 8000).dispute =
      some { resolvedDispute with
             status := some .resolved,
             resolution := some "second resolution",
             resolvedBy := some adminActor.id,
             resolvedAt := some 8000 } ∧
    (applyResolveDispute adminActor bkResolved resolvedDispute "second resolution"
        .completed 8000).status = .completed :=
  c5_amended_theorem adminActor bkResolved "second resolution" .completed 8000
    resolvedDispute rfl (by decide) (Or.inl rfl) rfl

/-- Claim C6 as amended: the payment sub-record is a pure function of the
transition applied — the status route maps it through the payout write
exactly when completing from `verification-pending` (and otherwise leaves
it untouched, including admin forces of `completed` from other statuses),
and dispute resolution derives `payout_pending` for `completed` and
`refund_pending` for `cancelled`. -/
theorem c6_amended_theorem (user : Actor) (booking b : Booking) (status : BookingStatus)
    (notes otp : Option String) (newOtp : String) (now : Nat)
    (resolution : String) (fs : BookingStatus) :
    (changeStatus user booking status notes otp newOtp now = .ok b →
      b.payment = (if status = .completed ∧ booking.status = .verificationPending then
          booking.payment.map (fun p => { p with status := .payoutPending })
        else booking.payment)) ∧
    (resolveDispute user booking resolution (some fs) now = .ok b →
      b.payment = booking.payment.map (fun p =>
        if fs = .completed then { p with status := .payoutPending }
        else if fs = .cancelled then { p with status := .refundPending }
        else p)) := by
  constructor <;> intro h
  · have hb := changeStatus_ok h
    subst hb
    rw [applyStatusChange_payment]
    split_ifs <;> rfl
  · obtain ⟨d, hd, hb⟩ := resolveDispute_ok h
    subst hb
    rfl

/-- Witness for C6: the OTP completion at the concrete booking takes the
payout branch of the payment derivation. -/
theorem c6_amended_witness :
    (applyStatusChange vendActor (clearOtpSetPayout bkVerif) .completed none
        "654321" 7000).payment =
      (if BookingStatus.completed = .completed ∧ bkVerif.status = .verificationPending then
        bkVerif.payment.map (fun p => { p with status := .payoutPending })
      else bkVerif.payment) :=
  (c6_amended_theorem vendActor bkVerif
    (applyStatusChange vendActor (clearOtpSetPayout bkVerif) .completed none "654321" 7000)
    .completed none (some "123456") "654321" 7000 "r" .completed).1 rfl

/-- Claim C7 as amended: an administrator who is not a participant can force
a `verification-pending` booking to `completed` with no code; the operation
succeeds, clears the code, marks the payment for payout — but the appended
timeline entry carries only the generic note
"Status updated to completed by admin" (or the caller-supplied note), never
a "bypassed verification" note. -/
theorem c7_amended_theorem (user : Actor) (booking : Booking) (newOtp : String) (now : Nat)
    (hrole : user.role = .admin) (hnc : booking.customer ≠ user.id)
    (hnv : booking.vendorUser ≠ user.id)
    (hst : booking.status = .verificationPending) :
    ∃ b, changeStatus user booking .completed none none newOtp now = .ok b ∧
      b.status = .completed ∧ b.completionOtp = none ∧
      b.payment = booking.payment.map (fun p => { p with status := .payoutPending }) ∧
      b.timeline = booking.timeline ++
        [⟨"completed", "Status updated to completed by admin", now⟩] := by
  simp [changeStatus, changeStatusRest, applyStatusChange, clearOtpSetPayout,
        validStatuses, allowedVendorStatuses, hst, hrole, hnc, hnv, strTruthy,
        orElseStr, BookingStatus.toStr, Role.toStr]

/-- Witness for C7 at the concrete verification-pending booking. -/
theorem c7_amended_witness :
    ∃ b, changeStatus adminActor bkVerif .completed none none "654321" 7000 = .ok b ∧
      b.status = .completed ∧ b.completionOtp = none ∧
      b.payment = bkVerif.payment.map (fun p => { p with status := .payoutPending }) ∧
      b.timeline = bkVerif.timeline ++
        [⟨"completed", "Status updated to completed by admin", 7000⟩] :=
  c7_amended_theorem adminActor bkVerif "654321" 7000 rfl (by decide) (by decide) rfl

/-- Claim C8 (confirmed): `SubmitReview` succeeds only for the booking's
customer, only on a `completed` booking, only when no truthy rating exists
yet (and mongoose enforces 1 ≤ score ≤ 5 at save); and on a booking that
already carries a rating the call fails with the 400 "already been
submitted" error, returning before `save()` so the existing rating is
unchanged. -/
theorem c8_theorem (user : Actor) (booking b : Booking) (score : Nat)
    (review : Option String) (now : Nat) :
    (submitReview user booking score review now = .ok b →
      booking.customer = user.id ∧ booking.status = .completed ∧
      ¬ ratingTruthy booking.rating ∧ 1 ≤ score ∧ score ≤ 5 ∧
      b.rating = some ⟨score, review, now⟩) ∧
    (∀ r, booking.rating = some r → r.score ≠ 0 →
      booking.customer = user.id → booking.status = .completed →
      submitReview user booking score review now =
        .error ⟨400, "A review for this booking has already been submitted."⟩) := by
  constructor
  · intro h
    unfold submitReview at h
    split_ifs at h
    all_goals first
      | exact Except.noConfusion h
      | (injection h with h0
         refine ⟨by tauto, by tauto, by tauto, by omega, by omega, ?_⟩
         rw [← h0])
  · intro r hr hscore hc hs
    unfold submitReview
    rw [if_neg (not_not_intro hc), if_neg (not_not_intro hs),
        if_pos (show ratingTruthy booking.rating by rw [hr]; exact hscore)]

/-- Witness for C8: a first review succeeds on the completed booking and a
second review on the already-rated booking fails. -/
theorem c8_witness :
    (bkCompleted.customer = custActor.id ∧ bkCompleted.status = .completed ∧
      ¬ ratingTruthy bkCompleted.rating ∧ 1 ≤ 5 ∧ 5 ≤ 5 ∧
      ({ bkCompleted with rating := some ⟨5, none, 9000⟩ } : Booking).rating =
        some ⟨5, none, 9000⟩) ∧
    submitReview custActor bkRated 4 none 9000 =
      .error ⟨400, "A review for this booking has already been submitted."⟩ :=
  ⟨(c8_theorem custActor bkCompleted { bkCompleted with rating := some ⟨5, none, 9000⟩ }
      5 none 9000).1 rfl,
   (c8_theorem custActor bkRated baseBooking 4 none 9000).2
     ⟨4, none, 100⟩ rfl (by decide) rfl rfl⟩

/-- Claim C9 (confirmed, implicit): the completion check compares only the
code value — a vendor completion with the matching code succeeds even when
`completionOtpExpires` is strictly in the past — while the customer
`FetchOtp` path is the only consumer of the expiry: on an expired code it
regenerates and extends the window to now + 10 minutes. -/
theorem c9_theorem (user u2 : Actor) (booking : Booking) (notes : Option String)
    (c newOtp : String) (now e : Nat)
    (hst : booking.status = .verificationPending) (hv : booking.vendorUser = user.id)
    (hnc : booking.customer ≠ user.id)
    (hotp : booking.completionOtp = some c) (hc : c ≠ "")
    (hexp : booking.completionOtpExpires = some e) (hpast : e < now)
    (hcust : booking.customer = u2.id) :
    (∃ b, changeStatus user booking .completed notes (some c) newOtp now = .ok b ∧
       b.status = .completed ∧
       b.payment = booking.payment.map (fun p => { p with status := .payoutPending })) ∧
    fetchOtp u2 booking newOtp now =
      .ok ({ booking with completionOtp := some newOtp,
                          completionOtpExpires := some (now + 10 * 60 * 1000) }, newOtp) := by
  constructor
  · simp [changeStatus, changeStatusRest, applyStatusChange, clearOtpSetPayout, validStatuses,
          allowedVendorStatuses, hst, hv, hnc, hotp, hc, strTruthy]
    split_ifs <;> simp
  · unfold fetchOtp
    rw [if_neg (not_not_intro hcust), if_neg (not_not_intro hst),
        if_pos (Or.inr (Or.inr ⟨e, hexp, hpast⟩))]

/-- Witness for C9 at the concrete booking, with the clock far past the
stored expiry (5000 < 999999). -/
theorem c9_witness :
    (∃ b, changeStatus vendActor bkVerif .completed none (some "123456") "999999" 999999 =
        .ok b ∧ b.status = .completed ∧
        b.payment = bkVerif.payment.map (fun p => { p with status := .payoutPending })) ∧
    fetchOtp custActor bkVerif "999999" 999999 =
      .ok ({ bkVerif with completionOtp := some "999999",
                          completionOtpExpires := some (999999 + 10 * 60 * 1000) }, "999999") :=
  c9_theorem vendActor custActor bkVerif none "123456" "999999" 999999 5000 rfl rfl
    (by decide) rfl (by decide) rfl (by decide) rfl

/-- Claim C10 (confirmed, implicit): a successful `ChangeStatus(cancelled)`
(by any actor) leaves the payment sub-record entirely unchanged, and none of
the embedded operations other than dispute resolution with final status
`cancelled` can introduce `refund_pending`: every other success either
preserves the payment sub-record or (the completion path) writes
`payout_pending`. -/
theorem c10_theorem (user : Actor) (booking b b2 : Booking) (status : BookingStatus)
    (notes otp vendorNotes : Option String) (newOtp s2 : String) (now : Nat)
    (reason description : String) (score : Nat) (review : Option String)
    (resolution : String) (fs : BookingStatus) :
    (changeStatus user booking .cancelled notes otp newOtp now = .ok b →
       b.payment = booking.payment) ∧
    (changeStatus user booking status notes otp newOtp now = .ok b →
       b.payment.map Payment.status = some .refundPending →
       booking.payment.map Payment.status = some .refundPending) ∧
    (vendorUpdateBookingStatus booking status vendorNotes now = .ok b →
       b.payment = booking.payment) ∧
    (raiseDispute user booking reason description now = .ok b →
       b.payment = booking.payment) ∧
    (submitReview user booking score review now = .ok b →
       b.payment = booking.payment) ∧
    (fetchOtp user booking newOtp now = .ok (b2, s2) →
       b2.payment = booking.payment) ∧
    (resolveDispute user booking resolution (some fs) now = .ok b →
       b.payment.map Payment.status = some .refundPending →
       booking.payment.map Payment.status = some .refundPending ∨ fs = .cancelled) := by
  refine ⟨?_, ?_, ?_, ?_, ?_, ?_, ?_⟩
  · intro h
    have hb := changeStatus_ok h
    subst hb
    rw [applyStatusChange_payment,
        if_neg (by rintro ⟨hx, _⟩; exact BookingStatus.noConfusion hx)]
  · intro h hmap
    have hb := changeStatus_ok h
    subst hb
    rw [applyStatusChange_payment] at hmap
    split_ifs at hmap with hcond
    · exfalso
      rw [show (clearOtpSetPayout booking).payment =
            booking.payment.map (fun p => { p with status := .payoutPending }) from rfl] at hmap
      rcases hp : booking.payment with _ | p <;> rw [hp] at hmap <;> simp at hmap
    · exact hmap
  · intro h
    have hb := vendorUpdateBookingStatus_ok h
    subst hb
    rfl
  · intro h
    have hb := raiseDispute_ok h
    subst hb
    rfl
  · intro h
    unfold submitReview at h
    split_ifs at h
    all_goals first
      | exact Except.noConfusion h
      | (injection h with h0; rw [← h0])
  · intro h
    unfold fetchOtp at h
    split_ifs at h
    all_goals first
      | exact Except.noConfusion h
      | (injection h with h0; injection h0 with ha hb2; rw [← ha])
  · intro h hmap
    obtain ⟨d, hd, hb⟩ := resolveDispute_ok h
    subst hb
    by_cases hfs : fs = .cancelled
    · exact Or.inr hfs
    · left
      have hpay : (applyResolveDispute user booking d resolution fs now).payment =
          booking.payment.map (fun p =>
            if fs = .completed then { p with status := .payoutPending }
            else if fs = .cancelled then { p with status := .refundPending }
            else p) := rfl
      rw [hpay] at hmap
      rcases hp : booking.payment with _ | p <;> rw [hp] at hmap <;> simp at hmap
      split_ifs at hmap with h1
      simp [hmap]

/-- Witness for C10: a customer cancellation of the in-progress booking
leaves the payment sub-record unchanged. -/
theorem c10_witness :
    (applyStatusChange custActor bkInProgress .cancelled none "654321" 7000).payment =
      bkInProgress.payment :=
  (c10_theorem custActor bkInProgress
      (applyStatusChange custActor bkInProgress .cancelled none "654321" 7000)
      baseBooking .pending none none none "654321" "s" 7000 "r" "d" 1 none "res" .completed).1 rfl

end Marketplace
